import Mathlib

/-!
Model of the esteria-api-client SMS gateway client (src/esteria.rs) and
proofs of its request-construction and response-interpretation properties.

The HTTP transport is modelled as a function from the request URL and the
query-parameter set to either a transport error (a description string,
standing for `reqwest::Error`) or a response body.  The `HashMap` of query
parameters is modelled as an association list with `HashMap::insert`
semantics (replace the value when the key is present, add the pair
otherwise).  `chrono::DateTime<Utc>` is modelled as a Unix timestamp in
seconds, and its `%Y-%m-%dT%H:%M:%S` formatting is implemented from the
civil-date algorithm.
-/

/-- Error type for SMS operations (`SmsError` in src/esteria.rs): the enum has
exactly the two variants `SendFailed { number, message }` and
`RequestFailed(reqwest::Error)`. -/
inductive SmsError where
  | SendFailed (number : String) (message : String)
  | RequestFailed (e : String)
deriving DecidableEq, Repr

/-- `SmsFlags` is a `bitflags` type over `u32`; we model the underlying bits
as a natural number. -/
abbrev SmsFlags := Nat

namespace SmsFlags

def DEBUG : SmsFlags := 1
def NOLOG : SmsFlags := 2
def FLASH : SmsFlags := 4
def TEST : SmsFlags := 8
def NOBL : SmsFlags := 16
def CONVERT : SmsFlags := 32

/-- `SmsFlags::empty()`. -/
def empty : SmsFlags := 0

/-- `bitflags`' `contains`: all bits of `m` are set in `f`. -/
def contains (f m : SmsFlags) : Bool := f &&& m == m

end SmsFlags

/-- SMS encoding options (`Encoding` in src/esteria.rs). -/
inductive Encoding where
  | Default
  | EightBit
  | Udh
deriving DecidableEq, Repr

/-- `chrono::DateTime<Utc>`, modelled as a Unix timestamp in seconds. -/
abbrev DateTime := Int

def pad2 (n : Nat) : String :=
  if n < 10 then "0" ++ toString n else toString n

def pad4 (n : Nat) : String :=
  if n < 10 then "000" ++ toString n
  else if n < 100 then "00" ++ toString n
  else if n < 1000 then "0" ++ toString n
  else toString n

/-- Civil date (year, month, day) from days since the Unix epoch
(standard era-based algorithm). -/
def civilFromDays (z0 : Int) : Int × Nat × Nat :=
  let z := z0 + 719468
  let era := z.ediv 146097
  let doe := (z.emod 146097).toNat
  let yoe := (doe - doe / 1460 + doe / 36524 - doe / 146096) / 365
  let doy := doe - (365 * yoe + yoe / 4 - yoe / 100)
  let mp := (5 * doy + 2) / 153
  let d := doy - (153 * mp + 2) / 5 + 1
  let m := if mp < 10 then mp + 3 else mp - 9
  let y := (yoe : Int) + era * 400
  (if m ≤ 2 then y + 1 else y, m, d)

/-- `time.format("%Y-%m-%dT%H:%M:%S")` for a UTC timestamp. -/
def formatDateTime (t : DateTime) : String :=
  let days := t.ediv 86400
  let sod := (t.emod 86400).toNat
  let c := civilFromDays days
  pad4 c.1.toNat ++ "-" ++ pad2 c.2.1 ++ "-" ++ pad2 c.2.2 ++ "T" ++
    pad2 (sod / 3600) ++ ":" ++ pad2 (sod % 3600 / 60) ++ ":" ++ pad2 (sod % 60)

/-- SMS API client for Esteria (`SmsClient`); the reusable `reqwest::Client`
handle carries no state relevant to the model. -/
structure SmsClient where
  api_base_url : String

/-- Request structure for sending SMS (`SmsRequest<'a>`). -/
structure SmsRequest where
  api_key : String
  sender : String
  number : String
  text : String
  time : Option DateTime
  dlr_url : Option String
  expired : Option Int
  flags : SmsFlags
  user_key : Option String
  encoding : Encoding

namespace SmsRequest

/-- `SmsRequest::new`: the four required parameters, every other attribute
defaulted. -/
def new (api_key sender number text : String) : SmsRequest :=
  { api_key := api_key
    sender := sender
    number := number
    text := text
    time := none
    dlr_url := none
    expired := none
    flags := SmsFlags.empty
    user_key := none
    encoding := Encoding.EightBit }

def with_time (r : SmsRequest) (time : DateTime) : SmsRequest :=
  { r with time := some time }

def with_dlr_url (r : SmsRequest) (dlr_url : String) : SmsRequest :=
  { r with dlr_url := some dlr_url }

def with_expired (r : SmsRequest) (expired : Int) : SmsRequest :=
  { r with expired := some expired }

def with_flags (r : SmsRequest) (flags : SmsFlags) : SmsRequest :=
  { r with flags := flags }

def with_user_key (r : SmsRequest) (user_key : String) : SmsRequest :=
  { r with user_key := some user_key }

def with_encoding (r : SmsRequest) (encoding : Encoding) : SmsRequest :=
  { r with encoding := encoding }

end SmsRequest

/-- `HashMap::insert`: replace the value when the key is present, otherwise
add the pair. -/
def insertParam (l : List (String × String)) (k v : String) :
    List (String × String) :=
  match l with
  | [] => [(k, v)]
  | (k', v') :: t => if k' = k then (k, v) :: t else (k', v') :: insertParam t k v

/-- Value stored under key `k` (first occurrence). -/
def getParam (l : List (String × String)) (k : String) : Option String :=
  match l with
  | [] => none
  | (k', v) :: t => if k' = k then some v else getParam t k

/-- Number of entries whose key is `k`. -/
def countKey (l : List (String × String)) (k : String) : Nat :=
  match l with
  | [] => 0
  | (k', _) :: t => (if k' = k then 1 else 0) + countKey t k

/-- Rust's `char::is_whitespace` (the Unicode `White_Space` property). -/
def rustIsWhitespace (c : Char) : Bool :=
  let n := c.toNat
  (9 ≤ n && n ≤ 13) || n == 32 || n == 133 || n == 160 || n == 5760 ||
  (8192 ≤ n && n ≤ 8202) || n == 8232 || n == 8233 || n == 8239 ||
  n == 8287 || n == 12288

/-- Rust's `str::trim`: remove leading and trailing whitespace. -/
def rustTrim (s : String) : String :=
  String.mk (((s.data.dropWhile rustIsWhitespace).reverse.dropWhile
    rustIsWhitespace).reverse)

/-- Rust's `str::trim_start_matches('+')`: remove ALL leading plus signs. -/
def dropLeadingPlus (s : String) : String :=
  String.mk (s.data.dropWhile (fun c => c == '+'))

def digitsToNat (ds : List Char) : Nat :=
  ds.foldl (fun a c => a * 10 + (c.toNat - 48)) 0

/-- Rust's `str::parse::<i32>()` as an `Option`: an optional single sign
followed by one or more ASCII decimal digits, rejected on `i32` overflow. -/
def parseI32 (s : String) : Option Int :=
  match s.data with
  | [] => none
  | c :: cs =>
    let sd : Bool × List Char :=
      if c == '+' then (false, cs)
      else if c == '-' then (true, cs)
      else (false, c :: cs)
    if sd.2.isEmpty then none
    else if sd.2.all Char.isDigit then
      let v := digitsToNat sd.2
      if sd.1 then (if v ≤ 2147483648 then some (-(v : Int)) else none)
      else (if v ≤ 2147483647 then some ((v : Int)) else none)
    else none

/-- An `if cond { params.insert(k, v) }` step of `send_sms`. -/
def addIf (c : Bool) (l : List (String × String)) (k v : String) :
    List (String × String) :=
  if c then insertParam l k v else l

/-- An `if let Some(x) = o { params.insert(k, f(x)) }` step of `send_sms`. -/
def addOpt {α : Type} (o : Option α) (l : List (String × String)) (k : String)
    (f : α → String) : List (String × String) :=
  match o with
  | some x => insertParam l k (f x)
  | none => l

/-- The query-parameter set built by `send_sms` (src/esteria.rs lines
145-201), with the inserts in source order. -/
def buildParams (r : SmsRequest) : List (String × String) :=
  let p1 := insertParam [] "api-key" r.api_key
  let p2 := insertParam p1 "sender" r.sender
  let p3 := insertParam p2 "number" (dropLeadingPlus r.number)
  let p4 := insertParam p3 "text" r.text
  let p5 := addOpt r.time p4 "time" formatDateTime
  let p6 := addOpt r.dlr_url p5 "dlr-url" (fun u => u)
  let p7 := addOpt r.expired p6 "expired" (fun e => toString e)
  let p8 := addIf (SmsFlags.contains r.flags SmsFlags.DEBUG) p7 "flag-debug" "1"
  let p9 := addIf (SmsFlags.contains r.flags SmsFlags.NOLOG) p8 "flag-nolog" "3"
  let p10 := addIf (SmsFlags.contains r.flags SmsFlags.FLASH) p9 "flag-flash" "1"
  let p11 := addIf (SmsFlags.contains r.flags SmsFlags.TEST) p10 "flag-test" "1"
  let p12 := addIf (SmsFlags.contains r.flags SmsFlags.NOBL) p11 "flag-nobl" "1"
  let p13 := addIf (SmsFlags.contains r.flags SmsFlags.CONVERT) p12 "flag-convert" "1"
  let p14 := addOpt r.user_key p13 "user-key" (fun u => u)
  match r.encoding with
  | Encoding.Udh => insertParam (insertParam p14 "udh" "1") "coding" "1"
  | Encoding.EightBit => insertParam p14 "coding" "1"
  | Encoding.Default => p14

/-- `get_response_code_message` (src/esteria.rs lines 232-255). -/
def getResponseCodeMessage (code : Int) : String :=
  if code = 1 then "system internal error"
  else if code = 2 then "missing PARAM_NAME parameter"
  else if code = 3 then "unable to authenticate"
  else if code = 4 then "IP ADDRESS is not allowed"
  else if code = 5 then "invalid SENDER parameter"
  else if code = 6 then "SENDER is not allowed"
  else if code = 7 then "invalid NUMBER parameter"
  else if code = 8 then "invalid CODING parameter"
  else if code = 9 then "unable to convert TEXT"
  else if code = 10 then "length of UDH and TEXT too long"
  else if code = 11 then "empty TEXT parameter"
  else if code = 12 then "invalid TIME parameter"
  else if code = 13 then "invalid EXPIRED parameter"
  else if code = 14 then "invalid DLR-URL parameter"
  else if code = 15 then "Invalid FLAG-FLASH parameter"
  else if code = 16 then "invalid FLAG-NOLOG parameter"
  else if code = 17 then "invalid FLAG-TEST parameter"
  else if code = 18 then "invalid FLAG-NOBL parameter"
  else if code = 19 then "invalid FLAG-CONVERT parameter"
  else "unknown error"

/-- Interpretation of the response body (src/esteria.rs lines 206-228):
trim, parse as `i32`; a value strictly above 100 is the message id, any
other value is a `SendFailed` with the table message, an unparseable body
is a `SendFailed` with "unknown error". -/
def interpretResponse (resp_text number : String) : Except SmsError Int :=
  match parseI32 (rustTrim resp_text) with
  | some code =>
    if 100 < code then Except.ok code
    else Except.error (SmsError.SendFailed number (getResponseCodeMessage code))
  | none => Except.error (SmsError.SendFailed number "unknown error")

/-- `SmsClient::send_sms`: build the parameters, perform the GET against
`{base_url}/send` (a transport failure from either `send()` or `text()`
propagates via `?` as `RequestFailed`), then interpret the body. -/
def sendSms (client : SmsClient) (r : SmsRequest)
    (transport : String → List (String × String) → Except String String) :
    Except SmsError Int :=
  match transport (client.api_base_url ++ "/send") (buildParams r) with
  | Except.error e => Except.error (SmsError.RequestFailed e)
  | Except.ok resp_text => interpretResponse resp_text r.number

/-- Spec-side definition for claim C1, following the spec's words: the
number normalized "by removing exactly one leading `+` if present". -/
def stripOneLeadingPlus (s : String) : String :=
  match s.data with
  | '+' :: rest => String.mk rest
  | _ => s

/-! ### Lemmas about the parameter-map operations -/

@[simp]
theorem getParam_insertParam (l : List (String × String)) (k v q : String) :
    getParam (insertParam l k v) q = if k = q then some v else getParam l q := by
  induction l with
  | nil => by_cases h : k = q <;> simp [insertParam, getParam, h]
  | cons hd t ih =>
    obtain ⟨a, b⟩ := hd
    by_cases hak : a = k
    · subst hak
      by_cases haq : a = q <;> simp [insertParam, getParam, haq]
    · by_cases haq : a = q <;> by_cases hkq : k = q <;>
        simp_all [insertParam, getParam]

@[simp]
theorem countKey_insertParam (l : List (String × String)) (k v q : String) :
    countKey (insertParam l k v) q =
      if k = q then max (countKey l k) 1 else countKey l q := by
  induction l with
  | nil => by_cases h : k = q <;> simp [insertParam, countKey, h]
  | cons hd t ih =>
    obtain ⟨a, b⟩ := hd
    by_cases hak : a = k
    · subst hak
      by_cases haq : a = q <;> simp_all [insertParam, countKey]
    · by_cases haq : a = q <;> by_cases hkq : k = q <;>
        simp_all [insertParam, countKey]

@[simp]
theorem getParam_addIf (c : Bool) (l : List (String × String)) (k v q : String) :
    getParam (addIf c l k v) q =
      if k = q then (if c then some v else getParam l q) else getParam l q := by
  cases c <;> by_cases h : k = q <;> simp [addIf, h]

@[simp]
theorem countKey_addIf (c : Bool) (l : List (String × String)) (k v q : String) :
    countKey (addIf c l k v) q =
      if k = q then (if c then max (countKey l k) 1 else countKey l q)
      else countKey l q := by
  cases c <;> by_cases h : k = q <;> simp [addIf, h]

@[simp]
theorem getParam_addOpt_ne {α : Type} (o : Option α) (l : List (String × String))
    (k : String) (f : α → String) (q : String) (h : k ≠ q) :
    getParam (addOpt o l k f) q = getParam l q := by
  cases o <;> simp [addOpt, h]

@[simp]
theorem countKey_addOpt_ne {α : Type} (o : Option α) (l : List (String × String))
    (k : String) (f : α → String) (q : String) (h : k ≠ q) :
    countKey (addOpt o l k f) q = countKey l q := by
  cases o <;> simp [addOpt, h]

/-! ### Claim theorems -/

/-- Claim C9: `SmsRequest::new` fills the four required fields and defaults
every other attribute (no schedule, no delivery-report URL, no expiry, empty
flag set, no user key, `EightBit` encoding), and each `with_*` builder sets
exactly its own attribute, leaving all others unchanged. -/
theorem C9_new_defaults_and_builders :
    (∀ a s n t, SmsRequest.new a s n t =
      { api_key := a, sender := s, number := n, text := t, time := none,
        dlr_url := none, expired := none, flags := SmsFlags.empty,
        user_key := none, encoding := Encoding.EightBit }) ∧
    (∀ (r : SmsRequest) (v : DateTime), r.with_time v = { r with time := some v }) ∧
    (∀ (r : SmsRequest) (v : String), r.with_dlr_url v = { r with dlr_url := some v }) ∧
    (∀ (r : SmsRequest) (v : Int), r.with_expired v = { r with expired := some v }) ∧
    (∀ (r : SmsRequest) (v : SmsFlags), r.with_flags v = { r with flags := v }) ∧
    (∀ (r : SmsRequest) (v : String), r.with_user_key v = { r with user_key := some v }) ∧
    (∀ (r : SmsRequest) (v : Encoding), r.with_encoding v = { r with encoding := v }) :=
  ⟨fun _ _ _ _ => rfl, fun _ _ => rfl, fun _ _ => rfl, fun _ _ => rfl,
   fun _ _ => rfl, fun _ _ => rfl, fun _ _ => rfl⟩

/-- Claim C1 as stated is false: `send_sms` strips ALL leading plus signs
(`trim_start_matches('+')`), not exactly one.  At number `"++15551234567"`
the wire parameter is `"15551234567"`, while removing exactly one leading
plus would give `"+15551234567"`. -/
theorem C1_counterexample :
    getParam (buildParams (SmsRequest.new "key" "snd" "++15551234567" "hello"))
        "number" = some "15551234567" ∧
    stripOneLeadingPlus "++15551234567" = "+15551234567" ∧
    ("15551234567" : String) ≠ "+15551234567" :=
  ⟨by decide, by decide, by decide⟩

/-- Claim C1 (amended): for every request, the wire parameter `number` sent
by `send_sms` equals the request's number field with ALL leading `+`
characters removed; a number with no leading `+` is unchanged. -/
theorem C1_amended_number_param (r : SmsRequest) :
    getParam (buildParams r) "number" = some (dropLeadingPlus r.number) := by
  obtain ⟨ak, sd, num, tx, tm, du, ex, fl, uk, enc⟩ := r
  cases enc <;> simp [buildParams]

/-- Claim C4: for every combination of the six flags, the outgoing parameter
set has exactly one `flag-*` entry per set flag and none for an unset flag;
the value is `"3"` for `NOLOG` and `"1"` for each of the other five flags. -/
theorem C4_flag_params (r : SmsRequest) :
    (countKey (buildParams r) "flag-debug" =
      if SmsFlags.contains r.flags SmsFlags.DEBUG then 1 else 0) ∧
    (getParam (buildParams r) "flag-debug" =
      if SmsFlags.contains r.flags SmsFlags.DEBUG then some "1" else none) ∧
    (countKey (buildParams r) "flag-nolog" =
      if SmsFlags.contains r.flags SmsFlags.NOLOG then 1 else 0) ∧
    (getParam (buildParams r) "flag-nolog" =
      if SmsFlags.contains r.flags SmsFlags.NOLOG then some "3" else none) ∧
    (countKey (buildParams r) "flag-flash" =
      if SmsFlags.contains r.flags SmsFlags.FLASH then 1 else 0) ∧
    (getParam (buildParams r) "flag-flash" =
      if SmsFlags.contains r.flags SmsFlags.FLASH then some "1" else none) ∧
    (countKey (buildParams r) "flag-test" =
      if SmsFlags.contains r.flags SmsFlags.TEST then 1 else 0) ∧
    (getParam (buildParams r) "flag-test" =
      if SmsFlags.contains r.flags SmsFlags.TEST then some "1" else none) ∧
    (countKey (buildParams r) "flag-nobl" =
      if SmsFlags.contains r.flags SmsFlags.NOBL then 1 else 0) ∧
    (getParam (buildParams r) "flag-nobl" =
      if SmsFlags.contains r.flags SmsFlags.NOBL then some "1" else none) ∧
    (countKey (buildParams r) "flag-convert" =
      if SmsFlags.contains r.flags SmsFlags.CONVERT then 1 else 0) ∧
    (getParam (buildParams r) "flag-convert" =
      if SmsFlags.contains r.flags SmsFlags.CONVERT then some "1" else none) := by
  obtain ⟨ak, sd, num, tx, tm, du, ex, fl, uk, enc⟩ := r
  refine ⟨?_, ?_, ?_, ?_, ?_, ?_, ?_, ?_, ?_, ?_, ?_, ?_⟩ <;>
    cases enc <;> simp [buildParams, getParam, countKey]

/-- Claim C5: the encoding-derived wire parameters are exactly `udh=1` and
`coding=1` for `Udh`, only `coding=1` for `EightBit`, and neither for
`Default`. -/
theorem C5_encoding_params (r : SmsRequest) :
    (getParam (buildParams r) "udh" =
      match r.encoding with
      | Encoding.Udh => some "1"
      | _ => none) ∧
    (getParam (buildParams r) "coding" =
      match r.encoding with
      | Encoding.Default => none
      | _ => some "1") ∧
    (countKey (buildParams r) "udh" =
      match r.encoding with
      | Encoding.Udh => 1
      | _ => 0) ∧
    (countKey (buildParams r) "coding" =
      match r.encoding with
      | Encoding.Default => 0
      | _ => 1) := by
  obtain ⟨ak, sd, num, tx, tm, du, ex, fl, uk, enc⟩ := r
  cases enc <;> refine ⟨?_, ?_, ?_, ?_⟩ <;> simp [buildParams, getParam, countKey]

/-- Claim C2: when the trimmed response body parses as a signed integer `n`,
`send_sms` returns success with message id `n` if and only if `n > 100`, and
returns `SendFailed` (with the table message) otherwise. -/
theorem C2_parse_threshold (body number : String) (n : Int)
    (h : parseI32 (rustTrim body) = some n) :
    (interpretResponse body number = Except.ok n ↔ 100 < n) ∧
    (n ≤ 100 →
      interpretResponse body number =
        Except.error (SmsError.SendFailed number (getResponseCodeMessage n))) := by
  have hi : interpretResponse body number =
      if 100 < n then Except.ok n
      else Except.error (SmsError.SendFailed number (getResponseCodeMessage n)) := by
    unfold interpretResponse
    rw [h]
  rw [hi]
  by_cases hn : 100 < n
  · rw [if_pos hn]
    exact ⟨⟨fun _ => hn, fun _ => rfl⟩, fun hle => absurd hn (by omega)⟩
  · rw [if_neg hn]
    constructor
    · constructor
      · intro hc
        exact absurd hc (by simp)
      · intro hgt
        exact absurd hgt hn
    · intro _
      rfl

/-- Witness for claim C2 at the boundary values: body `"101"` parses to 101
and yields success with id 101. -/
theorem C2_witness :
    (interpretResponse "101" "15551234567" = Except.ok 101 ↔ (100 : Int) < 101) ∧
    ((101 : Int) ≤ 100 →
      interpretResponse "101" "15551234567" =
        Except.error (SmsError.SendFailed "15551234567"
          (getResponseCodeMessage 101))) :=
  C2_parse_threshold "101" "15551234567" 101 rfl

/-- Claim C3: when the trimmed response body does not parse as a signed
integer, `send_sms` returns `SendFailed` with message exactly
`"unknown error"`. -/
theorem C3_unparseable (body number : String)
    (h : parseI32 (rustTrim body) = none) :
    interpretResponse body number =
      Except.error (SmsError.SendFailed number "unknown error") := by
  unfold interpretResponse
  rw [h]

/-- Witness for claim C3: body `"not-a-number"` yields `SendFailed` with
message `"unknown error"`. -/
theorem C3_witness :
    interpretResponse "not-a-number" "15551234567" =
      Except.error (SmsError.SendFailed "15551234567" "unknown error") :=
  C3_unparseable "not-a-number" "15551234567" rfl

/-- Claim C6: the response-code table is a fixed total function: codes 1
through 19 map to their fixed messages (7 to "invalid NUMBER parameter"),
every other code maps to "unknown error"; a body of `"7"` yields
`SendFailed` with the code-7 message and a body of `"42"` yields
`SendFailed` with "unknown error". -/
theorem C6_code_table (number : String) (c : Int) (h : c < 1 ∨ 19 < c) :
    getResponseCodeMessage c = "unknown error" ∧
    getResponseCodeMessage 1 = "system internal error" ∧
    getResponseCodeMessage 2 = "missing PARAM_NAME parameter" ∧
    getResponseCodeMessage 3 = "unable to authenticate" ∧
    getResponseCodeMessage 4 = "IP ADDRESS is not allowed" ∧
    getResponseCodeMessage 5 = "invalid SENDER parameter" ∧
    getResponseCodeMessage 6 = "SENDER is not allowed" ∧
    getResponseCodeMessage 7 = "invalid NUMBER parameter" ∧
    getResponseCodeMessage 8 = "invalid CODING parameter" ∧
    getResponseCodeMessage 9 = "unable to convert TEXT" ∧
    getResponseCodeMessage 10 = "length of UDH and TEXT too long" ∧
    getResponseCodeMessage 11 = "empty TEXT parameter" ∧
    getResponseCodeMessage 12 = "invalid TIME parameter" ∧
    getResponseCodeMessage 13 = "invalid EXPIRED parameter" ∧
    getResponseCodeMessage 14 = "invalid DLR-URL parameter" ∧
    getResponseCodeMessage 15 = "Invalid FLAG-FLASH parameter" ∧
    getResponseCodeMessage 16 = "invalid FLAG-NOLOG parameter" ∧
    getResponseCodeMessage 17 = "invalid FLAG-TEST parameter" ∧
    getResponseCodeMessage 18 = "invalid FLAG-NOBL parameter" ∧
    getResponseCodeMessage 19 = "invalid FLAG-CONVERT parameter" ∧
    interpretResponse "7" number =
      Except.error (SmsError.SendFailed number "invalid NUMBER parameter") ∧
    interpretResponse "42" number =
      Except.error (SmsError.SendFailed number "unknown error") := by
  refine ⟨?_, rfl, rfl, rfl, rfl, rfl, rfl, rfl, rfl, rfl, rfl, rfl, rfl, rfl,
    rfl, rfl, rfl, rfl, rfl, rfl, rfl, rfl⟩
  have hne : ∀ k : Int, 1 ≤ k → k ≤ 19 → c ≠ k := by omega
  simp [getResponseCodeMessage, hne 1 (by omega) (by omega),
    hne 2 (by omega) (by omega), hne 3 (by omega) (by omega),
    hne 4 (by omega) (by omega), hne 5 (by omega) (by omega),
    hne 6 (by omega) (by omega), hne 7 (by omega) (by omega),
    hne 8 (by omega) (by omega), hne 9 (by omega) (by omega),
    hne 10 (by omega) (by omega), hne 11 (by omega) (by omega),
    hne 12 (by omega) (by omega), hne 13 (by omega) (by omega),
    hne 14 (by omega) (by omega), hne 15 (by omega) (by omega),
    hne 16 (by omega) (by omega), hne 17 (by omega) (by omega),
    hne 18 (by omega) (by omega), hne 19 (by omega) (by omega)]

/-- Witness for claim C6 at code 42 (no table entry). -/
theorem C6_witness :
    getResponseCodeMessage 42 = "unknown error" ∧
    getResponseCodeMessage 1 = "system internal error" ∧
    getResponseCodeMessage 2 = "missing PARAM_NAME parameter" ∧
    getResponseCodeMessage 3 = "unable to authenticate" ∧
    getResponseCodeMessage 4 = "IP ADDRESS is not allowed" ∧
    getResponseCodeMessage 5 = "invalid SENDER parameter" ∧
    getResponseCodeMessage 6 = "SENDER is not allowed" ∧
    getResponseCodeMessage 7 = "invalid NUMBER parameter" ∧
    getResponseCodeMessage 8 = "invalid CODING parameter" ∧
    getResponseCodeMessage 9 = "unable to convert TEXT" ∧
    getResponseCodeMessage 10 = "length of UDH and TEXT too long" ∧
    getResponseCodeMessage 11 = "empty TEXT parameter" ∧
    getResponseCodeMessage 12 = "invalid TIME parameter" ∧
    getResponseCodeMessage 13 = "invalid EXPIRED parameter" ∧
    getResponseCodeMessage 14 = "invalid DLR-URL parameter" ∧
    getResponseCodeMessage 15 = "Invalid FLAG-FLASH parameter" ∧
    getResponseCodeMessage 16 = "invalid FLAG-NOLOG parameter" ∧
    getResponseCodeMessage 17 = "invalid FLAG-TEST parameter" ∧
    getResponseCodeMessage 18 = "invalid FLAG-NOBL parameter" ∧
    getResponseCodeMessage 19 = "invalid FLAG-CONVERT parameter" ∧
    interpretResponse "7" "15551234567" =
      Except.error (SmsError.SendFailed "15551234567" "invalid NUMBER parameter") ∧
    interpretResponse "42" "15551234567" =
      Except.error (SmsError.SendFailed "15551234567" "unknown error") :=
  C6_code_table "15551234567" 42 (Or.inr (by omega))

/-- Claim C7: a transport-level failure (of the GET or of reading the body)
makes `send_sms` return `RequestFailed` wrapping the underlying transport
error, never `SendFailed`. -/
theorem C7_transport_failure (client : SmsClient) (r : SmsRequest)
    (transport : String → List (String × String) → Except String String)
    (e : String)
    (h : transport (client.api_base_url ++ "/send") (buildParams r) =
      Except.error e) :
    sendSms client r transport = Except.error (SmsError.RequestFailed e) ∧
    ∀ n m, sendSms client r transport ≠
      Except.error (SmsError.SendFailed n m) := by
  unfold sendSms
  rw [h]
  exact ⟨rfl, fun n m hc => by simp at hc⟩

/-- Witness for claim C7: a connection-refused transport yields
`RequestFailed`. -/
theorem C7_witness :
    sendSms ⟨"http://gw"⟩ (SmsRequest.new "key" "snd" "+15551234567" "hi")
        (fun _ _ => Except.error "connection refused") =
      Except.error (SmsError.RequestFailed "connection refused") ∧
    ∀ n m, sendSms ⟨"http://gw"⟩ (SmsRequest.new "key" "snd" "+15551234567" "hi")
        (fun _ _ => Except.error "connection refused") ≠
      Except.error (SmsError.SendFailed n m) :=
  C7_transport_failure ⟨"http://gw"⟩ (SmsRequest.new "key" "snd" "+15551234567" "hi")
    (fun _ _ => Except.error "connection refused") "connection refused" rfl

/-- Claim C8: every error returned by `send_sms` is one of exactly the two
kinds `SendFailed` or `RequestFailed`; the error type has no other variant,
so no `InvalidResponse` error can be produced. -/
theorem C8_error_taxonomy (client : SmsClient) (r : SmsRequest)
    (transport : String → List (String × String) → Except String String)
    (err : SmsError) (h : sendSms client r transport = Except.error err) :
    (∃ n m, err = SmsError.SendFailed n m) ∨
    (∃ e, err = SmsError.RequestFailed e) := by
  cases err with
  | SendFailed n m => exact Or.inl ⟨n, m, rfl⟩
  | RequestFailed e => exact Or.inr ⟨e, rfl⟩

/-- Witness for claim C8: a gateway response of `"1"` produces a
`SendFailed` error, which is one of the two kinds. -/
theorem C8_witness :
    (∃ n m, SmsError.SendFailed "+15551234567" "system internal error" =
      SmsError.SendFailed n m) ∨
    (∃ e, SmsError.SendFailed "+15551234567" "system internal error" =
      SmsError.RequestFailed e) :=
  C8_error_taxonomy ⟨"http://gw"⟩ (SmsRequest.new "key" "snd" "+15551234567" "hi")
    (fun _ _ => Except.ok "1")
    (SmsError.SendFailed "+15551234567" "system internal error") rfl

/-- Claim C10: whenever `send_sms` results in `SendFailed`, the number
carried by the error is the request's number field exactly as supplied,
not the normalized wire value. -/
theorem C10_sendfailed_number (client : SmsClient) (r : SmsRequest)
    (transport : String → List (String × String) → Except String String)
    (n m : String)
    (h : sendSms client r transport =
      Except.error (SmsError.SendFailed n m)) :
    n = r.number := by
  unfold sendSms at h
  split at h
  · simp at h
  · unfold interpretResponse at h
    split at h
    · split at h
      · simp at h
      · simp at h
        exact h.1.symm
    · simp at h
      exact h.1.symm

/-- Witness for claim C10: with number `"+15551234567"` and a gateway
response of `"7"`, the `SendFailed` error carries the original number with
its leading plus. -/
theorem C10_witness :
    "+15551234567" = (SmsRequest.new "key" "snd" "+15551234567" "hi").number :=
  C10_sendfailed_number ⟨"http://gw"⟩
    (SmsRequest.new "key" "snd" "+15551234567" "hi")
    (fun _ _ => Except.ok "7") "+15551234567" "invalid NUMBER parameter" rfl
